import Mathlib

/-!
Verification of the gnenv configuration resolver (`src/gnenv/environ.py`).

The development shallowly embeds the two cores of the module:

* `ConfigDict` with its `get`/`sub`/`subp`/`set` operations and the
  recursive placeholder-resolution closure `config_format` defined inside
  `ConfigDict.get` (environ.py lines 14-127);
* the secrets overlay pipeline `load_secrets_file` (environ.py lines
  201-231), built on Python's `string.Template.safe_substitute`.

Python dictionaries are modelled as association lists with unique keys
(first match wins on lookup, `pySet` replaces in place or appends, matching
insertion-ordered `dict` update semantics).  Python's unbounded `while`
loop in `config_format` and the character scanners are given an explicit
fuel argument so that every definition is executable and total; running
out of fuel is a distinguished outcome (`CfgResult.fuelOut`) that no
theorem below relies on.  Exceptions are modelled as error values:
`RuntimeError` for circular references and missing keys, `KeyError` from
`get`, and a catch-all `pyError` for exception paths the claims never
exercise (`ValueError` from malformed format fields, `AttributeError`
from non-dict domain values, `IndexError` from positional fields).
-/

namespace Gnenv

/-- Python configuration values: `None`, booleans, integers, strings,
lists and string-keyed dictionaries (environ.py stores exactly these
through yaml/json loading). -/
inductive Value where
  | vnull
  | vbool (b : Bool)
  | vint (n : Int)
  | vstr (s : String)
  | vlist (elems : List Value)
  | vdict (entries : List (String × Value))

/-- Outcome of `ConfigDict.get` / `config_format`.  `ok` is a normal
return; `defaultClass` is the `ConfigDict.DefaultValue` sentinel class
returned as-is; `keyError` is `raise KeyError(key)`; `circularRef` and
`missingKey` are the two `RuntimeError`s of `config_format`; `pyError`
covers exception paths outside the claims; `fuelOut` marks fuel
exhaustion of the model. -/
inductive CfgResult where
  | ok (v : Value)
  | defaultClass
  | keyError (key : String)
  | circularRef (value token : String)
  | missingKey (key : String)
  | pyError
  | fuelOut

/-- `d.get(k)`: first binding of `k` in an association-list dictionary. -/
def pyLookup {α : Type} (d : List (String × α)) (k : String) : Option α :=
  match d.find? (fun p => p.1 == k) with
  | some p => some p.2
  | none => none

/-- `d[k] = v`: replace the binding of `k` in place if present, else
append it (Python dicts keep insertion order). -/
def pySet {α : Type} (d : List (String × α)) (k : String) (v : α) : List (String × α) :=
  if d.any (fun p => p.1 == k) then
    d.map (fun p => if p.1 = k then (p.1, v) else p)
  else
    d ++ [(k, v)]

/-- `d.update(other)`: assign every binding of `other` into `d`, left to
right. -/
def pyUpdate {α : Type} (d other : List (String × α)) : List (String × α) :=
  other.foldl (fun acc kv => pySet acc kv.1 kv.2) d

/-- `s.lower()` restricted to ASCII, which covers every string the
claims touch. -/
def pyLower (s : String) : String :=
  String.mk (s.data.map Char.toLower)

/-- Python single-quote character, used by `str()`/`repr()` of dicts. -/
def quoteChar : Char := Char.ofNat 39

/-- `repr(v)` for the modelled value fragment: strings are single-quoted
(escape-free strings only, which covers every claim input), containers
render their elements with `repr`, scalars render as Python spells them. -/
def pyRepr : Nat → Value → String
  | 0, _ => ""
  | _+1, .vnull => "None"
  | _+1, .vbool true => "True"
  | _+1, .vbool false => "False"
  | _+1, .vint n => toString n
  | _+1, .vstr s => String.mk (quoteChar :: s.data) ++ String.mk [quoteChar]
  | fuel+1, .vlist l =>
      "[" ++ String.intercalate ", " (l.map (pyRepr fuel)) ++ "]"
  | fuel+1, .vdict d =>
      "\x7b" ++ String.intercalate ", "
        (d.map (fun p => String.mk (quoteChar :: p.1.data) ++ String.mk [quoteChar] ++ ": " ++ pyRepr fuel p.2)) ++ "\x7d"

/-- `str(v)` (equal to `format(v, '')` for the modelled types): like
`repr` except that a top-level string renders unquoted. -/
def pyStr (fuel : Nat) : Value → String
  | .vstr s => s
  | v => pyRepr fuel v

/-- `re.search("{.*?}", s)`: the first `{` that has some `}` after it,
matched lazily up to the first such `}`; `none` when no such pair
exists.  Returns the matched token including both braces. -/
def takeUntilClose : List Char → Option (List Char)
  | [] => none
  | c :: rest => if c = '}' then some [] else (takeUntilClose rest).map (c :: ·)

/-- See `takeUntilClose`; this is the whole `re.search` model. -/
def reSearchTok : List Char → Option (List Char)
  | [] => none
  | c :: rest =>
    if c = '{' then
      match takeUntilClose rest with
      | some mid => some ('{' :: mid ++ ['}'])
      | none => none
    else reSearchTok rest

/-- Outcome of one `s.format(**params)` pass. -/
inductive PyFmtOut where
  | ok (s : List Char)
  | missingKey (k : String)
  | pyError
  | fuelOut

/-- Scan a `str.format` replacement field after the opening `{`: the
field name is everything up to the closing `}`.  A nested `{` is a
`ValueError` in CPython, signalled here by `none`. -/
def takeField : List Char → Option (List Char × List Char)
  | [] => none
  | c :: rest =>
    if c = '}' then some ([], rest)
    else if c = '{' then none
    else (takeField rest).map (fun p => (c :: p.1, p.2))

/-- One pass of `s.format(**params)`, restricted to the simple named
fields this code base uses: `{{`/`}}` unescape, `{name}` substitutes
`str(params[name])` without rescanning it, an unknown name is a
`KeyError`, and positional (`{}`, `{0}`) or malformed fields are the
unmodelled `ValueError`/`IndexError` paths (`pyError`). -/
def strFormat (params : List (String × Value)) : Nat → List Char → PyFmtOut
  | 0, _ => .fuelOut
  | _+1, [] => .ok []
  | fuel+1, c :: rest =>
    if c = '{' then
      match rest with
      | '{' :: t =>
          match strFormat params fuel t with
          | .ok s => .ok ('{' :: s)
          | e => e
      | _ =>
          match takeField rest with
          | some (name, rem) =>
              if name.isEmpty || name.all Char.isDigit then .pyError
              else
                match pyLookup params (String.mk name) with
                | some v =>
                    match strFormat params fuel rem with
                    | .ok s => .ok ((pyStr (fuel+1) v).data ++ s)
                    | e => e
                | none => .missingKey (String.mk name)
          | none => .pyError
    else if c = '}' then
      match rest with
      | '}' :: t =>
          match strFormat params fuel t with
          | .ok s => .ok ('}' :: s)
          | e => e
      | _ => .pyError
    else
      match strFormat params fuel rest with
      | .ok s => .ok (c :: s)
      | e => e

/-- `set('{' + key + '}')` builds the set of the *characters* of the
token string, i.e. a set of one-character strings — not the token
itself.  This is the seed of the cycle-guard set `keydb`. -/
def seedKeydb (key : String) : List String :=
  ('{' :: key.data ++ ['}']).map (fun c => String.mk [c])

/-- The `while True` resolution loop of `config_format`: search for the
first `{...}` token; stop when none remains; fail with the circular
`RuntimeError` when the token is already in `keydb`; otherwise add the
token and run one `s.format(**params)` pass (a `KeyError` there becomes
the missing-key `RuntimeError`). -/
def config_format_loop (params : List (String × Value)) : Nat → List String → List Char → CfgResult
  | 0, _, _ => .fuelOut
  | fuel+1, keydb, s =>
    match reSearchTok s with
    | none => .ok (.vstr (String.mk s))
    | some tok =>
        let tokS := String.mk tok
        if tokS ∈ keydb then .circularRef (String.mk s) tokS
        else
          match strFormat params (s.length + 1) s with
          | .ok s1 => config_format_loop params fuel (tokS :: keydb) s1
          | .missingKey k => .missingKey k
          | .pyError => .pyError
          | .fuelOut => .fuelOut

/-- Collect element results of a list comprehension: the first raised
exception propagates, otherwise all values are gathered. -/
def collectValues : List CfgResult → Except CfgResult (List Value)
  | [] => .ok []
  | .ok v :: rest => (collectValues rest).map (v :: ·)
  | r :: _ => .error r

/-- Collect entry results for a dict comprehension. -/
def collectEntries : List (String × CfgResult) → Except CfgResult (List (String × Value))
  | [] => .ok []
  | (k, .ok v) :: rest => (collectEntries rest).map ((k, v) :: ·)
  | (_, r) :: _ => .error r

/-- `config_format(s, _params)`, the closure defined inside
`ConfigDict.get` (environ.py lines 55-93).  `None` and non-string
scalars pass through, lists and dicts resolve element-wise, the strings
`"null"`/`"none"` (case-insensitive) become `""`, and every other
string runs the substitution loop with the cycle guard seeded by
`set('{' + key + '}')`. -/
def config_format (key : String) (params : List (String × Value)) : Nat → Value → CfgResult
  | 0, _ => .fuelOut
  | _+1, .vnull => .ok .vnull
  | _+1, .vbool b => .ok (.vbool b)
  | _+1, .vint n => .ok (.vint n)
  | fuel+1, .vlist l =>
      match collectValues (l.map (config_format key params fuel)) with
      | .ok vs => .ok (.vlist vs)
      | .error e => e
  | fuel+1, .vdict d =>
      match collectEntries (d.map (fun p => (p.1, config_format key params fuel p.2))) with
      | .ok es => .ok (.vdict es)
      | .error e => e
  | fuel+1, .vstr s =>
      if pyLower s == "null" || pyLower s == "none" then .ok (.vstr "")
      else config_format_loop params (fuel+1) (seedKeydb key) s.data

/-- The configuration container: a `params` dictionary and an optional
`override` dictionary (environ.py lines 14-27). -/
structure ConfigDict where
  params : List (String × Value)
  override : Option (List (String × Value))

/-- `subp(parent)`: copy the parent's params, layer own params on top,
then re-apply the override when present (environ.py lines 29-34). -/
def ConfigDict.subp (c : ConfigDict) (parent : ConfigDict) : ConfigDict :=
  let p := pyUpdate parent.params c.params
  let p := match c.override with
    | some o => pyUpdate p o
    | none => p
  ⟨p, c.override⟩

/-- `sub(**params)`: copy own params, layer the extra bindings on top,
then re-apply the override when present (environ.py lines 36-41). -/
def ConfigDict.sub (c : ConfigDict) (extra : List (String × Value)) : ConfigDict :=
  let p := pyUpdate c.params extra
  let p := match c.override with
    | some o => pyUpdate p o
    | none => p
  ⟨p, c.override⟩

/-- `set(key, val, domain)` (environ.py lines 43-49); `none` models the
`TypeError`/`AttributeError` path where `params[domain]` exists but is
not a dict. -/
def ConfigDict.set (c : ConfigDict) (key : String) (v : Value) (domain : Option String) :
    Option ConfigDict :=
  match domain with
  | none => some ⟨pySet c.params key v, c.override⟩
  | some d =>
    let base := match pyLookup c.params d with
      | none => pySet c.params d (.vdict [])
      | some _ => c.params
    match pyLookup base d with
    | some (Value.vdict dm) => some ⟨pySet base d (.vdict (pySet dm key v)), c.override⟩
    | _ => none

/-- `get(key, default, params, domain)` (environ.py lines 54-115).
`dflt = none` is the `DefaultValue` sentinel (no default supplied);
`dflt = some .vnull` is an explicit `None` default.  With a `domain`
that is present in `params`, a key that is absent — or stored as `None`
— takes the miss path: explicit-`None` default yields `''`, any other
supplied default is returned as-is (unresolved), and with no default
the sentinel class object itself is returned.  With a `domain` absent
from `params` the call falls through to the plain lookup.  The
substitution source is the `params` argument when supplied, else the
container's own `params`. -/
def ConfigDict.get (c : ConfigDict) (key : String) (dflt : Option Value)
    (paramsArg : Option (List (String × Value))) (domain : Option String)
    (fuel : Nat) : CfgResult :=
  let params := paramsArg.getD c.params
  let fallthrough :=
    match pyLookup c.params key with
    | some v => config_format key params fuel v
    | none =>
      match dflt with
      | none => .keyError key
      | some d => config_format key params fuel d
  match domain with
  | some dom =>
    match pyLookup c.params dom with
    | some (Value.vdict dmap) =>
        match pyLookup dmap key with
        | some Value.vnull | none =>
            match dflt with
            | some Value.vnull => .ok (.vstr "")
            | none => .defaultClass
            | some d => .ok d
        | some v => config_format key params fuel v
    | some _ => .pyError
    | none => fallthrough
  | none => fallthrough

example :
    (ConfigDict.mk [("a", .vstr "x"), ("b", .vstr "{a}"), ("c", .vstr "{b}")] none).get
      "c" none none none 10 = .ok (.vstr "x") := rfl

example :
    (ConfigDict.mk [("k", .vstr "A")] (some [("k", .vstr "Z")])).get
      "k" none none none 5 = .ok (.vstr "A") := rfl

example :
    (ConfigDict.mk [("a", .vstr "x{a}")] none).get "a" none none none 5 =
      .circularRef "xx{a}" "{a}" := rfl

example :
    (ConfigDict.mk [("a", .vstr "{a}")] none).get "a" none (some [("a", .vstr "z")]) none 5 =
      .ok (.vstr "z") := rfl

example :
    (ConfigDict.mk [("d", .vdict [])] none).get "x" none none (some "d") 5 =
      .defaultClass := rfl

example :
    (ConfigDict.mk [("x", .vstr "1")] none).get "x" none none (some "d") 5 =
      .ok (.vstr "1") := rfl

example :
    (ConfigDict.mk [("m", .vstr "NULL")] none).get "m" none none none 5 =
      .ok (.vstr "") := rfl

/-! ## Secrets overlay pipeline (environ.py lines 201-231)

`load_secrets_file` stringifies the raw config dict, substitutes
`${name}`/`$name` placeholders first from `os.environ` and then — when
the secrets file exists — from the parsed secrets mapping, and finally
re-parses the text with `ast.literal_eval`.  The process environment,
the secrets mapping, and the `os.path.isfile` test are passed in
explicitly (`env`, `secrets`, `secretsFileExists`); the path and
environment-name resolution of lines 205-215 is pure glue the claims do
not touch. -/

/-- Python identifier start for `string.Template` patterns:
`[_a-zA-Z]` (ASCII, which covers the claims). -/
def isIdentStart (c : Char) : Bool :=
  ('a' ≤ c && c ≤ 'z') || ('A' ≤ c && c ≤ 'Z') || c = '_'

/-- Python identifier continuation: `[_a-zA-Z0-9]`. -/
def isIdentChar (c : Char) : Bool :=
  isIdentStart c || c.isDigit

/-- Longest run of identifier characters, and the remaining text. -/
def takeIdentRest : List Char → List Char × List Char
  | [] => ([], [])
  | c :: rest =>
    if isIdentChar c then
      let p := takeIdentRest rest
      (c :: p.1, p.2)
    else ([], c :: rest)

/-- Parse `name}` right after `${`: an identifier immediately followed
by `}`; returns the name and the text after the `}`. -/
def takeBracedIdent : List Char → Option (List Char × List Char)
  | [] => none
  | c :: rest =>
    if isIdentStart c then
      match takeIdentRest rest with
      | (ids, '}' :: rem) => some (c :: ids, rem)
      | _ => none
    else none

/-- Parse `name` right after a bare `$`. -/
def takeName : List Char → Option (List Char × List Char)
  | [] => none
  | c :: rest =>
    if isIdentStart c then
      let (ids, rem) := takeIdentRest rest
      some (c :: ids, rem)
    else none

/-- `string.Template(s).safe_substitute(f)`: `$$` unescapes to `$`,
`${name}` and `$name` substitute `f name` without rescanning the
substituted text, an unmatched or invalid placeholder is left verbatim,
and no error is ever raised.  Fuel-driven; with fuel `0` the remaining
text is returned unchanged (every claim theorem below supplies enough
fuel explicitly). -/
def safeSubF (f : String → Option String) : Nat → List Char → List Char
  | 0, s => s
  | _+1, [] => []
  | fuel+1, c :: rest =>
    if c = '$' then
      match rest with
      | [] => ['$']
      | d :: t =>
        if d = '$' then '$' :: safeSubF f fuel t
        else if d = '{' then
          match takeBracedIdent t with
          | some (nm, rem) =>
              match f (String.mk nm) with
              | some v => v.data ++ safeSubF f fuel rem
              | none => '$' :: '{' :: (nm ++ '}' :: safeSubF f fuel rem)
          | none => '$' :: safeSubF f fuel rest
        else
          match takeName rest with
          | some (nm, rem) =>
              match f (String.mk nm) with
              | some v => v.data ++ safeSubF f fuel rem
              | none => '$' :: (nm ++ safeSubF f fuel rem)
          | none => '$' :: safeSubF f fuel rest
    else c :: safeSubF f fuel rest

/-- `safe_substitute` on `String`s. -/
def safeSubstitute (f : String → Option String) (fuel : Nat) (s : String) : String :=
  String.mk (safeSubF f fuel s.data)

/-- The textual core of `load_secrets_file` (lines 219-229): phase 1
substitutes environment variables into the stringified config, phase 2
substitutes the secrets mapping into the phase-1 output only when the
secrets file exists. -/
def loadSecretsText (txt : String) (env secrets : String → Option String)
    (secretsFileExists : Bool) (fuel1 fuel2 : Nat) : String :=
  let t1 := safeSubstitute env fuel1 txt
  if secretsFileExists then safeSubstitute secrets fuel2 t1 else t1

/-- `str(config_dict)` for a flat string-valued dict, e.g.
`{'k': 'v', 'l': 'w'}` — the fragment the pipeline claims exercise. -/
def strOfFlatDict (d : List (String × String)) : String :=
  "\x7b" ++ String.intercalate ", "
    (d.map (fun p =>
      String.mk (quoteChar :: p.1.data) ++ String.mk [quoteChar] ++ ": " ++
      String.mk (quoteChar :: p.2.data) ++ String.mk [quoteChar])) ++ "\x7d"

/-- A single-quoted string literal body: characters up to the closing
quote (escape sequences do not occur in the modelled texts). -/
def takeStrLit : List Char → Option (String × List Char)
  | [] => none
  | c :: rest =>
    if c = quoteChar then some ("", rest)
    else (takeStrLit rest).map (fun p => (String.mk (c :: p.1.data), p.2))

/-- Entries of a flat dict literal after the opening `{`. -/
def parseEntries : Nat → List Char → Option (List (String × String))
  | 0, _ => none
  | fuel+1, l =>
    match l with
    | q :: rest =>
      if q = quoteChar then
        match takeStrLit rest with
        | some (k, rest1) =>
          match rest1 with
          | ':' :: ' ' :: q2 :: rest2 =>
            if q2 = quoteChar then
              match takeStrLit rest2 with
              | some (v, rest3) =>
                match rest3 with
                | '}' :: [] => some [(k, v)]
                | ',' :: ' ' :: rest4 => (parseEntries fuel rest4).map ((k, v) :: ·)
                | _ => none
              | none => none
            else none
          | _ => none
        | none => none
      else none
    | _ => none

/-- `ast.literal_eval` restricted to the flat single-quoted-string dict
texts produced by `strOfFlatDict` and its substituted variants; any
other text is a parse failure (`none`), standing for the propagated
`ValueError`/`SyntaxError`. -/
def literalEvalFlatDict (s : String) : Option (List (String × String)) :=
  match s.data with
  | '{' :: '}' :: [] => some []
  | '{' :: rest => parseEntries (rest.length + 1) rest
  | _ => none

/-- `load_secrets_file(config_dict, ...)` on a flat string-valued dict:
stringify, substitute environment then secrets, re-parse. -/
def load_secrets_file (configDict : List (String × String))
    (env secrets : String → Option String) (secretsFileExists : Bool)
    (fuel1 fuel2 : Nat) : Option (List (String × String)) :=
  literalEvalFlatDict
    (loadSecretsText (strOfFlatDict configDict) env secrets secretsFileExists fuel1 fuel2)

example :
    load_secrets_file [("k", "${S}")]
      (fun n => if n = "S" then some "env_value" else none)
      (fun n => if n = "S" then some "secret_value" else none)
      true 40 40 = some [("k", "env_value")] := rfl

example :
    load_secrets_file [("k", "${S}")]
      (fun _ => none)
      (fun n => if n = "S" then some "secret_value" else none)
      true 40 40 = some [("k", "secret_value")] := rfl

example :
    load_secrets_file [("k", "${S}")] (fun _ => none) (fun _ => none) false 40 40 =
      some [("k", "${S}")] := rfl

example :
    load_secrets_file [("k", "${S}")] (fun _ => none) (fun _ => none) true 40 40 =
      some [("k", "${S}")] := rfl

/-! ## Heap model for `sub`/`subp` non-mutation (environ.py lines 29-41)

`sub` and `subp` start from `dict(...)` copies, mutate only the copy,
and wrap the copy in a fresh `ConfigDict`.  To state that the originals
are untouched we model the dict heap explicitly: a store of dicts
addressed by index, where `dict(d)` allocates a fresh address holding
`d`'s entries and `p.update(...)` rewrites only `p`'s own address. -/

/-- A heap of Python dict objects; the address of a dict is its index. -/
structure Store where
  dicts : List (List (String × Value))

/-- Dereference an address (out-of-range reads, which never occur for
valid references, give the empty dict). -/
def Store.read (st : Store) (a : Nat) : List (String × Value) :=
  st.dicts.getD a []

/-- Allocate a fresh dict object, returning its address. -/
def Store.alloc (st : Store) (d : List (String × Value)) : Store × Nat :=
  (⟨st.dicts ++ [d]⟩, st.dicts.length)

/-- A `ConfigDict` whose `params` lives on the heap.  `override` is
never mutated by any modelled operation, so it stays by value. -/
structure CRef where
  params : Nat
  override : Option (List (String × Value))

/-- `sub(**extra)` on the heap: `p = dict(self.params)` (a fresh copy),
`p.update(extra)`, `p.update(override)` when present, and a new
container around the copy. -/
def subStore (st : Store) (c : CRef) (extra : List (String × Value)) : Store × CRef :=
  let p := pyUpdate (st.read c.params) extra
  let p := match c.override with
    | some o => pyUpdate p o
    | none => p
  let (st1, a) := st.alloc p
  (st1, ⟨a, c.override⟩)

/-- `subp(parent)` on the heap: `p = dict(parent.params)`,
`p.update(self.params)`, `p.update(override)` when present, and a new
container around the copy. -/
def subpStore (st : Store) (c parent : CRef) : Store × CRef :=
  let p := pyUpdate (st.read parent.params) (st.read c.params)
  let p := match c.override with
    | some o => pyUpdate p o
    | none => p
  let (st1, a) := st.alloc p
  (st1, ⟨a, c.override⟩)

/-! ## Association-list dictionary lemmas -/

theorem pyLookup_nil {α : Type} (k : String) : pyLookup ([] : List (String × α)) k = none := rfl

theorem pyLookup_cons {α : Type} (p : String × α) (d : List (String × α)) (k : String) :
    pyLookup (p :: d) k = if p.1 = k then some p.2 else pyLookup d k := by
  by_cases h : p.1 = k
  · simp [pyLookup, List.find?_cons, h]
  · have hb : (p.1 == k) = false := beq_eq_false_iff_ne.mpr h
    simp [pyLookup, List.find?_cons, hb, h]

theorem pyLookup_map_replace {α : Type} (d : List (String × α)) (k : String) (v : α)
    (h : d.any (fun p => p.1 == k) = true) :
    pyLookup (d.map (fun p => if p.1 = k then (p.1, v) else p)) k = some v := by
  induction d with
  | nil => simp at h
  | cons p rest ih =>
    by_cases hp : p.1 = k
    · simp [pyLookup_cons, hp]
    · have hb : (p.1 == k) = false := beq_eq_false_iff_ne.mpr hp
      simp only [List.any_cons, hb, Bool.false_or] at h
      simp [pyLookup_cons, hp, ih h]

theorem pyLookup_map_replace_ne {α : Type} (d : List (String × α)) (k k' : String) (v : α)
    (h : k' ≠ k) :
    pyLookup (d.map (fun p => if p.1 = k then (p.1, v) else p)) k' = pyLookup d k' := by
  induction d with
  | nil => rfl
  | cons p rest ih =>
    by_cases hp : p.1 = k
    · have h2 : k ≠ k' := Ne.symm h
      simp [pyLookup_cons, hp, h2, ih]
    · simp [pyLookup_cons, hp, ih]

theorem pyLookup_append_single {α : Type} (d : List (String × α)) (k : String) (v : α)
    (h : d.any (fun p => p.1 == k) = false) :
    pyLookup (d ++ [(k, v)]) k = some v := by
  induction d with
  | nil => simp [pyLookup_cons]
  | cons p rest ih =>
    rw [List.any_cons, Bool.or_eq_false_iff] at h
    have hp : p.1 ≠ k := by
      intro he
      rw [he] at h
      simpa using h.1
    rw [List.cons_append, pyLookup_cons, if_neg hp]
    exact ih h.2

theorem pyLookup_append_single_ne {α : Type} (d : List (String × α)) (k k' : String) (v : α)
    (h : k' ≠ k) :
    pyLookup (d ++ [(k, v)]) k' = pyLookup d k' := by
  induction d with
  | nil => simp [pyLookup_cons, pyLookup_nil, Ne.symm h]
  | cons p rest ih =>
    by_cases hp : p.1 = k'
    · simp [pyLookup_cons, hp]
    · simp [pyLookup_cons, hp, ih]

theorem pyLookup_pySet_self {α : Type} (d : List (String × α)) (k : String) (v : α) :
    pyLookup (pySet d k v) k = some v := by
  unfold pySet
  by_cases h : d.any (fun p => p.1 == k) = true
  · rw [if_pos h]; exact pyLookup_map_replace d k v h
  · rw [if_neg h]
    have hf : d.any (fun p => p.1 == k) = false := by
      cases hany : d.any (fun p => p.1 == k) with
      | false => rfl
      | true => exact absurd hany h
    exact pyLookup_append_single d k v hf

theorem pyLookup_pySet_ne {α : Type} (d : List (String × α)) (k k' : String) (v : α)
    (h : k' ≠ k) : pyLookup (pySet d k v) k' = pyLookup d k' := by
  unfold pySet
  split
  · exact pyLookup_map_replace_ne d k k' v h
  · exact pyLookup_append_single_ne d k k' v h

theorem pyLookup_pyUpdate_not_mem {α : Type} (other : List (String × α)) (d : List (String × α))
    (k : String) (h : k ∉ other.map Prod.fst) :
    pyLookup (pyUpdate d other) k = pyLookup d k := by
  induction other generalizing d with
  | nil => rfl
  | cons kv rest ih =>
    simp only [List.map_cons, List.mem_cons, not_or] at h
    have step : pyUpdate d (kv :: rest) = pyUpdate (pySet d kv.1 kv.2) rest := rfl
    rw [step, ih _ h.2, pyLookup_pySet_ne _ _ _ _ h.1]

theorem pyLookup_pyUpdate_mem {α : Type} (other : List (String × α)) (d : List (String × α))
    (k : String) (v : α)
    (hnd : (other.map Prod.fst).Nodup) (h : pyLookup other k = some v) :
    pyLookup (pyUpdate d other) k = some v := by
  induction other generalizing d with
  | nil => simp [pyLookup_nil] at h
  | cons kv rest ih =>
    simp only [List.map_cons, List.nodup_cons] at hnd
    have step : pyUpdate d (kv :: rest) = pyUpdate (pySet d kv.1 kv.2) rest := rfl
    rw [pyLookup_cons] at h
    by_cases hk : kv.1 = k
    · rw [if_pos hk] at h
      have hv : kv.2 = v := by simpa using h
      have hout : k ∉ rest.map Prod.fst := by rw [← hk]; exact hnd.1
      rw [step, pyLookup_pyUpdate_not_mem rest _ k hout, ← hk, pyLookup_pySet_self, hv]
    · rw [if_neg hk] at h
      rw [step]
      exact ih _ hnd.2 h

theorem pyLookup_filter_out {α : Type} (d : List (String × α)) (k : String) :
    pyLookup (d.filter (fun p => !(p.1 == k))) k = none := by
  induction d with
  | nil => rfl
  | cons p rest ih =>
    by_cases hp : p.1 = k
    · have hb : (p.1 == k) = true := by simpa using hp
      simp [List.filter_cons, hb, ih]
    · have hb : (p.1 == k) = false := beq_eq_false_iff_ne.mpr hp
      simp [List.filter_cons, hb, pyLookup_cons, hp, ih]

/-! ## Plain-string resolution lemmas -/

/-- A string that resolution leaves untouched: it contains no `{` (so
`re.search` finds no token) and is not a spelling of null/none. -/
def plainStrB (s : String) : Bool :=
  s.data.all (fun c => !(c == '{')) && !(pyLower s == "null") && !(pyLower s == "none")

theorem reSearchTok_none (l : List Char) (h : ∀ c ∈ l, c ≠ '{') : reSearchTok l = none := by
  induction l with
  | nil => rfl
  | cons c rest ih =>
    unfold reSearchTok
    rw [if_neg (h c (List.mem_cons_self c rest))]
    exact ih (fun x hx => h x (List.mem_cons_of_mem c hx))

theorem config_format_plain (key : String) (params : List (String × Value)) (fuel : Nat)
    (s : String) (h : plainStrB s = true) :
    config_format key params (fuel + 1) (.vstr s) = .ok (.vstr s) := by
  have h' := h
  unfold plainStrB at h'
  simp only [Bool.and_eq_true, Bool.not_eq_true', List.all_eq_true] at h'
  obtain ⟨⟨hbrace, hnull⟩, hnone⟩ := h'
  unfold config_format
  rw [if_neg (by simp [hnull, hnone])]
  unfold config_format_loop
  rw [reSearchTok_none s.data (fun c hc => by simpa using hbrace c hc)]

/-! ## `safe_substitute` lemmas -/

/-- Bool-level validity of a `string.Template` identifier. -/
def validIdentB (l : List Char) : Bool :=
  match l with
  | [] => false
  | c :: cs => isIdentStart c && cs.all isIdentChar

theorem safeSubF_nil (f : String → Option String) (fuel : Nat) : safeSubF f fuel [] = [] := by
  cases fuel <;> rfl

theorem safeSubF_noDollar (f : String → Option String) (s : List Char)
    (h : ∀ c ∈ s, c ≠ '$') : ∀ fuel, safeSubF f fuel s = s := by
  induction s with
  | nil => exact fun fuel => safeSubF_nil f fuel
  | cons c rest ih =>
    intro fuel
    cases fuel with
    | zero => rfl
    | succ n =>
      unfold safeSubF
      rw [if_neg (h c (List.mem_cons_self c rest))]
      rw [ih (fun x hx => h x (List.mem_cons_of_mem c hx)) n]

theorem takeIdentRest_append (ids rest : List Char)
    (hids : ∀ c ∈ ids, isIdentChar c = true) :
    takeIdentRest (ids ++ '}' :: rest) = (ids, '}' :: rest) := by
  induction ids with
  | nil =>
    have hstop : isIdentChar '}' = false := by decide
    simp [takeIdentRest, hstop]
  | cons c cs ih =>
    have hc : isIdentChar c = true := hids c (List.mem_cons_self c cs)
    have ih' := ih (fun x hx => hids x (List.mem_cons_of_mem c hx))
    simp [takeIdentRest, hc, ih']

theorem takeBracedIdent_append (name rest : List Char) (hv : validIdentB name = true) :
    takeBracedIdent (name ++ '}' :: rest) = some (name, rest) := by
  match name, hv with
  | c :: cs, hv =>
    unfold validIdentB at hv
    simp only [Bool.and_eq_true, List.all_eq_true] at hv
    rw [List.cons_append]
    show (if isIdentStart c = true then
            match takeIdentRest (cs ++ '}' :: rest) with
            | (ids, '}' :: rem) => some (c :: ids, rem)
            | _ => none
          else none) = some (c :: cs, rest)
    rw [if_pos hv.1, takeIdentRest_append cs rest hv.2]
    rfl

theorem safeSubF_step_braced (f : String → Option String) (t : List Char) (fuel : Nat) :
    safeSubF f (fuel + 1) ('$' :: '{' :: t) =
      (match takeBracedIdent t with
       | some (nm, rem) =>
          match f (String.mk nm) with
          | some v => v.data ++ safeSubF f fuel rem
          | none => '$' :: '{' :: (nm ++ '}' :: safeSubF f fuel rem)
       | none => '$' :: safeSubF f fuel ('{' :: t)) := rfl

theorem safeSubF_braced_sub (f : String → Option String) (name rest : List Char)
    (v : String) (fuel : Nat) (hv : validIdentB name = true)
    (hf : f (String.mk name) = some v) :
    safeSubF f (fuel + 1) ('$' :: '{' :: (name ++ '}' :: rest)) =
      v.data ++ safeSubF f fuel rest := by
  rw [safeSubF_step_braced, takeBracedIdent_append name rest hv]
  show (match f (String.mk name) with
        | some v => v.data ++ safeSubF f fuel rest
        | none => '$' :: '{' :: (name ++ '}' :: safeSubF f fuel rest)) =
      v.data ++ safeSubF f fuel rest
  rw [hf]

theorem safeSubF_braced_miss (f : String → Option String) (name rest : List Char)
    (hv : validIdentB name = true) (hf : f (String.mk name) = none) (fuel : Nat) :
    safeSubF f (fuel + 1) ('$' :: '{' :: (name ++ '}' :: rest)) =
      '$' :: '{' :: (name ++ '}' :: safeSubF f fuel rest) := by
  rw [safeSubF_step_braced, takeBracedIdent_append name rest hv]
  show (match f (String.mk name) with
        | some v => v.data ++ safeSubF f fuel rest
        | none => '$' :: '{' :: (name ++ '}' :: safeSubF f fuel rest)) =
      '$' :: '{' :: (name ++ '}' :: safeSubF f fuel rest)
  rw [hf]

/-! ## Claim theorems -/

/-- C1 counterexample: a freshly constructed container with
`override = some [("k", "Z")]` and `params = [("k", "A")]` returns `"A"`
for `get("k")` — the override is not consulted by `get` on the original
container, contradicting the claim that it wins on every read. -/
theorem C1_counterexample :
    (ConfigDict.mk [("k", .vstr "A")] (some [("k", .vstr "Z")])).get
      "k" none none none 5 = .ok (.vstr "A") ∧
    CfgResult.ok (.vstr "A") ≠ .ok (.vstr "Z") :=
  ⟨rfl, by simp⟩

/-- C1 amended: the override mapping takes effect only through
derivation.  `sub`/`subp` re-apply the override last, so a derived
container resolves a plain override value for every key the override
defines — whether or not `params` also binds that key (the shadowing
case included).  On the container as constructed, `get` consults only
`params`, so a key the override defines but `params` does not raises
`KeyError` there. -/
theorem C1_override_wins_only_after_derivation
    (c : ConfigDict) (o extra : List (String × Value)) (parent : ConfigDict)
    (k v : String) (fuel : Nat)
    (ho : c.override = some o)
    (hnd : (o.map Prod.fst).Nodup)
    (hk : pyLookup o k = some (.vstr v))
    (hplain : plainStrB v = true) :
    (c.sub extra).get k none none none (fuel + 1) = .ok (.vstr v) ∧
    (c.subp parent).get k none none none (fuel + 1) = .ok (.vstr v) ∧
    (pyLookup c.params k = none → c.get k none none none fuel = .keyError k) := by
  have hsub : pyLookup (c.sub extra).params k = some (.vstr v) := by
    simp only [ConfigDict.sub, ho]
    exact pyLookup_pyUpdate_mem o _ k _ hnd hk
  have hsubp : pyLookup (c.subp parent).params k = some (.vstr v) := by
    simp only [ConfigDict.subp, ho]
    exact pyLookup_pyUpdate_mem o _ k _ hnd hk
  refine ⟨?_, ?_, ?_⟩
  · unfold ConfigDict.get
    simp only [hsub, Option.getD_none]
    exact config_format_plain k _ fuel v hplain
  · unfold ConfigDict.get
    simp only [hsubp, Option.getD_none]
    exact config_format_plain k _ fuel v hplain
  · intro habs
    unfold ConfigDict.get
    simp only [habs]

theorem C1_override_wins_only_after_derivation_witness :
    ((ConfigDict.mk [("k", .vstr "A")] (some [("k", .vstr "Z")])).sub []).get
      "k" none none none 4 = .ok (.vstr "Z") ∧
    ((ConfigDict.mk [("k", .vstr "A")] (some [("k", .vstr "Z")])).subp
      (ConfigDict.mk [] none)).get "k" none none none 4 = .ok (.vstr "Z") ∧
    (ConfigDict.mk [("x", .vstr "A")] (some [("k", .vstr "Z")])).get
      "k" none none none 3 = .keyError "k" :=
  have h1 := C1_override_wins_only_after_derivation
    (ConfigDict.mk [("k", .vstr "A")] (some [("k", .vstr "Z")]))
    [("k", .vstr "Z")] [] (ConfigDict.mk [] none) "k" "Z" 3
    rfl (by decide) rfl rfl
  have h2 := C1_override_wins_only_after_derivation
    (ConfigDict.mk [("x", .vstr "A")] (some [("k", .vstr "Z")]))
    [("k", .vstr "Z")] [] (ConfigDict.mk [] none) "k" "Z" 3
    rfl (by decide) rfl rfl
  ⟨h1.1, h1.2.1, h2.2.2 rfl⟩

/-- C2: the code seeds the cycle guard with `set('{' + key + '}')`, the
set of the *characters* of the token, so the fetched key's own token is
never pre-seeded.  A value whose first token equals the key's token is
substituted once before any circular failure: with `params = {"a":
"{a}"}` and substitution source `{"a": "z"}`, `get("a")` returns `"z"`
where the claim demands an immediate circular error; with `{"a":
"x{a}"}` the circular error fires only on the second iteration, naming
the once-substituted value `"xx{a}"`. -/
theorem C2_char_seed_eval :
    (ConfigDict.mk [("a", .vstr "{a}")] none).get
      "a" none (some [("a", .vstr "z")]) none 5 = .ok (.vstr "z") ∧
    (ConfigDict.mk [("a", .vstr "x{a}")] none).get
      "a" none none none 5 = .circularRef "xx{a}" "{a}" ∧
    seedKeydb "a" = ["\x7b", "a", "\x7d"] :=
  ⟨rfl, rfl, rfl⟩

/-- C3 counterexample: with `params = {"x": "1"}` and the domain `"d"`
absent from `params`, `get("x", domain="d")` falls through and returns
the top-level `params["x"]`, contradicting the claim that a
domain-scoped lookup never reads the top-level key. -/
theorem C3_counterexample :
    (ConfigDict.mk [("x", .vstr "1")] none).get
      "x" none none (some "d") 5 = .ok (.vstr "1") ∧
    pyLookup [("x", Value.vstr "1")] "d" = none :=
  ⟨rfl, rfl⟩

/-- C3 amended: when the domain *is* present in `params`, the
domain-scoped lookup never falls back to the top-level key — the result
is a function of the domain's mapping, the default and the substitution
source alone, so it coincides with the result on a container holding
nothing but the domain entry.  (When the domain is absent, the call
falls through to a plain top-level lookup, as the counterexample
shows.) -/
theorem C3_domain_present_never_falls_back
    (c : ConfigDict) (d k : String) (dmap : List (String × Value))
    (dflt : Option Value) (ps : List (String × Value)) (fuel : Nat)
    (hd : pyLookup c.params d = some (.vdict dmap)) :
    c.get k dflt (some ps) (some d) fuel =
      (ConfigDict.mk [(d, .vdict dmap)] none).get k dflt (some ps) (some d) fuel := by
  have hd2 : pyLookup [(d, Value.vdict dmap)] d = some (.vdict dmap) := by
    rw [pyLookup_cons]
    simp
  unfold ConfigDict.get
  simp only [hd, hd2, Option.getD_some]

theorem C3_domain_present_never_falls_back_witness :
    (ConfigDict.mk [("d", .vdict [("x", .vstr "5")]), ("x", .vstr "1")] none).get
      "x" none (some []) (some "d") 3 =
    (ConfigDict.mk [("d", .vdict [("x", .vstr "5")])] none).get
      "x" none (some []) (some "d") 3 :=
  C3_domain_present_never_falls_back
    (ConfigDict.mk [("d", .vdict [("x", .vstr "5")]), ("x", .vstr "1")] none)
    "d" "x" [("x", .vstr "5")] none [] 3 rfl

/-- C4 counterexample: with `params = {"d": {}}` and no default,
`get("x", domain="d")` returns the `DefaultValue` sentinel class object
instead of raising any missing-key error. -/
theorem C4_counterexample :
    (ConfigDict.mk [("d", .vdict [])] none).get "x" none none (some "d") 5 =
      .defaultClass ∧
    CfgResult.defaultClass ≠ .keyError "x" ∧
    CfgResult.defaultClass ≠ .missingKey "x" :=
  ⟨rfl, by simp, by simp⟩

/-- C4 amended: when the domain is present in `params`, the key is
absent from the domain mapping and no default was supplied, `get`
returns the `DefaultValue` sentinel marker itself (the miss path
returns the default as-is, and with nothing supplied the default *is*
the sentinel class); no missing-key error is raised. -/
theorem C4_domain_miss_returns_sentinel
    (c : ConfigDict) (d k : String) (dmap : List (String × Value))
    (psArg : Option (List (String × Value))) (fuel : Nat)
    (hd : pyLookup c.params d = some (.vdict dmap))
    (hk : pyLookup dmap k = none) :
    c.get k none psArg (some d) fuel = .defaultClass := by
  unfold ConfigDict.get
  simp only [hd, hk]

theorem C4_domain_miss_returns_sentinel_witness :
    (ConfigDict.mk [("d", .vdict [("y", .vstr "1")])] none).get
      "x" none none (some "d") 5 = .defaultClass :=
  C4_domain_miss_returns_sentinel
    (ConfigDict.mk [("d", .vdict [("y", .vstr "1")])] none)
    "d" "x" [("y", .vstr "1")] none 5 rfl rfl

/-- C6: the chained, pairwise-distinct tokens of
`{"a": "x", "b": "{a}", "c": "{b}"}` resolve `get("c")` to `"x"`
through repeated substitution passes with no circular error. -/
theorem C6_chained_tokens_resolve :
    (ConfigDict.mk [("a", .vstr "x"), ("b", .vstr "{a}"), ("c", .vstr "{b}")] none).get
      "c" none none none 10 = .ok (.vstr "x") := rfl

/-- C8: a non-domain `get` on an absent key raises `KeyError` when no
default is supplied; a supplied default is run through `config_format`
(resolution applies to defaults), and in particular the empty-string
default resolves to `""` without error. -/
theorem C8_missing_key_default (c : ConfigDict) (k : String) (dv : Value)
    (psArg : Option (List (String × Value))) (fuel : Nat)
    (habs : pyLookup c.params k = none) :
    c.get k none psArg none fuel = .keyError k ∧
    c.get k (some dv) psArg none fuel = config_format k (psArg.getD c.params) fuel dv ∧
    c.get k (some (.vstr "")) psArg none (fuel + 1) = .ok (.vstr "") := by
  refine ⟨?_, ?_, ?_⟩
  · unfold ConfigDict.get
    simp only [habs]
  · unfold ConfigDict.get
    simp only [habs]
  · unfold ConfigDict.get
    simp only [habs]
    exact config_format_plain k _ fuel "" rfl

theorem C8_missing_key_default_witness :
    (ConfigDict.mk [("a", .vstr "x")] none).get "missing" none none none 2 =
      .keyError "missing" ∧
    (ConfigDict.mk [("a", .vstr "x")] none).get "missing" (some (.vstr "{a}")) none none 2 =
      config_format "missing" [("a", .vstr "x")] 2 (.vstr "{a}") ∧
    (ConfigDict.mk [("a", .vstr "x")] none).get "missing" (some (.vstr "")) none none 3 =
      .ok (.vstr "") :=
  C8_missing_key_default (ConfigDict.mk [("a", .vstr "x")] none)
    "missing" (.vstr "{a}") none 2 rfl

/-- C9: on the heap model, `sub` and `subp` write only a freshly
allocated dict (the `dict(...)` copy) and wrap it in a new container:
every pre-existing address — in particular the `params` of the receiver
and of the parent — still reads the same entries afterwards, and the
returned container's `params` address is the fresh one, distinct from
both originals. -/
theorem C9_sub_subp_no_mutation (st : Store) (c parent : CRef)
    (extra : List (String × Value)) (a : Nat)
    (hc : c.params < st.dicts.length) (hp : parent.params < st.dicts.length)
    (ha : a < st.dicts.length) :
    (subStore st c extra).1.read a = st.read a ∧
    (subpStore st c parent).1.read a = st.read a ∧
    (subStore st c extra).2.params = st.dicts.length ∧
    (subpStore st c parent).2.params = st.dicts.length ∧
    (subStore st c extra).2.params ≠ c.params ∧
    (subpStore st c parent).2.params ≠ c.params ∧
    (subpStore st c parent).2.params ≠ parent.params := by
  refine ⟨?_, ?_, rfl, rfl, ?_, ?_, ?_⟩
  · show (st.dicts ++ [_]).getD a [] = st.dicts.getD a []
    exact List.getD_append _ _ _ _ ha
  · show (st.dicts ++ [_]).getD a [] = st.dicts.getD a []
    exact List.getD_append _ _ _ _ ha
  · show st.dicts.length ≠ c.params
    omega
  · show st.dicts.length ≠ c.params
    omega
  · show st.dicts.length ≠ parent.params
    omega

theorem C9_sub_subp_no_mutation_witness :
    (subStore (Store.mk [[("a", .vstr "x")], []]) (CRef.mk 0 none) []).1.read 0 =
      (Store.mk [[("a", .vstr "x")], []]).read 0 ∧
    (subpStore (Store.mk [[("a", .vstr "x")], []]) (CRef.mk 0 none) (CRef.mk 1 none)).1.read 0 =
      (Store.mk [[("a", .vstr "x")], []]).read 0 ∧
    (subStore (Store.mk [[("a", .vstr "x")], []]) (CRef.mk 0 none) []).2.params = 2 ∧
    (subpStore (Store.mk [[("a", .vstr "x")], []]) (CRef.mk 0 none) (CRef.mk 1 none)).2.params = 2 ∧
    (subStore (Store.mk [[("a", .vstr "x")], []]) (CRef.mk 0 none) []).2.params ≠ 0 ∧
    (subpStore (Store.mk [[("a", .vstr "x")], []]) (CRef.mk 0 none) (CRef.mk 1 none)).2.params ≠ 0 ∧
    (subpStore (Store.mk [[("a", .vstr "x")], []]) (CRef.mk 0 none) (CRef.mk 1 none)).2.params ≠ 1 :=
  C9_sub_subp_no_mutation (Store.mk [[("a", .vstr "x")], []])
    (CRef.mk 0 none) (CRef.mk 1 none) [] 0 (by decide) (by decide) (by decide)

/-- C10: in a domain-scoped `get` with the domain present, a key stored
as `None` takes the same miss path as an absent key — the call is equal
to the call on the container with that key deleted from the domain
mapping — and a supplied default comes back as-is (unresolved), with an
explicit `None` default turned into `""`. -/
theorem C10_domain_null_behaves_as_missing
    (ps1 dmap : List (String × Value)) (d k : String)
    (ov : Option (List (String × Value))) (dv : Value)
    (psArg : Option (List (String × Value))) (fuel : Nat)
    (hd : pyLookup ps1 d = some (.vdict dmap))
    (hk : pyLookup dmap k = some .vnull) :
    (ConfigDict.mk ps1 ov).get k (some dv) psArg (some d) fuel =
      (ConfigDict.mk (pySet ps1 d (.vdict (dmap.filter (fun p => !(p.1 == k))))) ov).get
        k (some dv) psArg (some d) fuel ∧
    (dv = .vnull →
      (ConfigDict.mk ps1 ov).get k (some dv) psArg (some d) fuel = .ok (.vstr "")) ∧
    (dv ≠ .vnull →
      (ConfigDict.mk ps1 ov).get k (some dv) psArg (some d) fuel = .ok dv) := by
  have hd2 : pyLookup (pySet ps1 d (.vdict (dmap.filter (fun p => !(p.1 == k))))) d =
      some (.vdict (dmap.filter (fun p => !(p.1 == k)))) :=
    pyLookup_pySet_self ps1 d _
  have hk2 := pyLookup_filter_out dmap k
  refine ⟨?_, ?_, ?_⟩
  · unfold ConfigDict.get
    simp only [hd, hd2, hk, hk2]
  · intro h
    subst h
    unfold ConfigDict.get
    simp only [hd, hk]
  · intro h
    unfold ConfigDict.get
    simp only [hd, hk]

theorem C10_domain_null_behaves_as_missing_witness :
    (ConfigDict.mk [("d", .vdict [("x", .vnull)])] none).get
      "x" (some (.vstr "w")) none (some "d") 3 =
    (ConfigDict.mk
        (pySet [("d", .vdict [("x", .vnull)])] "d"
          (.vdict ([("x", Value.vnull)].filter (fun p => !(p.1 == "x"))))) none).get
      "x" (some (.vstr "w")) none (some "d") 3 ∧
    (ConfigDict.mk [("d", .vdict [("x", .vnull)])] none).get
      "x" (some (.vstr "w")) none (some "d") 3 = .ok (.vstr "w") :=
  have h := C10_domain_null_behaves_as_missing
    [("d", .vdict [("x", .vnull)])] [("x", .vnull)] "d" "x" none (.vstr "w") none 3 rfl rfl
  ⟨h.1, h.2.2 (fun hh => nomatch hh)⟩

/-- C5: phase 1 (environment substitution) runs before phase 2 (secrets
substitution), so a placeholder whose name both mappings define is
filled with the environment value: for any valid identifier `name`
defined by `env` (with a dollar-free value) and also defined by
`secrets`, the pipeline resolves the text `${name}` to the environment
value; and on the spec's concrete dict, `{'k': '${S}'}` with
`S=env_value` in the environment and `S: secret_value` in the secrets
file parses back to `{'k': 'env_value'}`. -/
theorem C5_env_precedes_secrets (name ve vs : String)
    (env secrets : String → Option String) (f1 f2 : Nat)
    (hname : validIdentB name.data = true)
    (henv : env name = some ve)
    (hnd : ∀ c ∈ ve.data, c ≠ '$')
    (hsec : secrets name = some vs) :
    loadSecretsText ("$\x7b" ++ name ++ "\x7d") env secrets true (f1 + 1) f2 = ve ∧
    load_secrets_file [("k", "$\x7bS\x7d")]
      (fun n => if n = "S" then some "env_value" else none)
      (fun n => if n = "S" then some "secret_value" else none)
      true 40 40 = some [("k", "env_value")] := by
  have hdata : ("$\x7b" ++ name ++ "\x7d").data = '$' :: '{' :: (name.data ++ '}' :: []) := by
    rw [String.data_append, String.data_append]
    simp
  have h1 : safeSubstitute env (f1 + 1) ("$\x7b" ++ name ++ "\x7d") = ve := by
    unfold safeSubstitute
    rw [hdata, safeSubF_braced_sub env name.data [] ve f1 hname henv, safeSubF_nil]
    simp
  have h2 : safeSubstitute secrets f2 ve = ve := by
    unfold safeSubstitute
    rw [safeSubF_noDollar secrets ve.data hnd f2]
  refine ⟨?_, rfl⟩
  simp [loadSecretsText, h1, h2]

theorem C5_env_precedes_secrets_witness :
    loadSecretsText ("$\x7b" ++ "S" ++ "\x7d")
      (fun n => if n = "S" then some "env_value" else none)
      (fun n => if n = "S" then some "secret_value" else none) true 5 7 = "env_value" ∧
    load_secrets_file [("k", "$\x7bS\x7d")]
      (fun n => if n = "S" then some "env_value" else none)
      (fun n => if n = "S" then some "secret_value" else none)
      true 40 40 = some [("k", "env_value")] :=
  C5_env_precedes_secrets "S" "env_value" "secret_value"
    (fun n => if n = "S" then some "env_value" else none)
    (fun n => if n = "S" then some "secret_value" else none)
    4 7 rfl rfl (by decide) rfl

/-- C7: a `${name}` placeholder matched by neither the environment nor
the secrets mapping survives both phases verbatim (no error is
possible: substitution is total); a missing secrets file skips phase 2,
making the pipeline output the phase-1 text directly; and on the spec's
concrete dict the unmatched placeholder `${S}` reappears literally in
the re-parsed structure, with or without a secrets file. -/
theorem C7_unmatched_placeholder_left_verbatim (name txt : String)
    (env secrets : String → Option String) (b : Bool) (f1 f2 : Nat)
    (hname : validIdentB name.data = true)
    (henv : env name = none) (hsec : secrets name = none) :
    loadSecretsText ("$\x7b" ++ name ++ "\x7d") env secrets b f1 f2 =
      "$\x7b" ++ name ++ "\x7d" ∧
    loadSecretsText txt env secrets false f1 f2 = safeSubstitute env f1 txt ∧
    load_secrets_file [("k", "$\x7bS\x7d")] (fun _ => none) (fun _ => none) false 40 40 =
      some [("k", "$\x7bS\x7d")] ∧
    load_secrets_file [("k", "$\x7bS\x7d")] (fun _ => none) (fun _ => none) true 40 40 =
      some [("k", "$\x7bS\x7d")] := by
  have hdata : ("$\x7b" ++ name ++ "\x7d").data = '$' :: '{' :: (name.data ++ '}' :: []) := by
    rw [String.data_append, String.data_append]
    simp
  have key : ∀ (f : String → Option String), f name = none → ∀ fuel,
      safeSubstitute f fuel ("$\x7b" ++ name ++ "\x7d") = "$\x7b" ++ name ++ "\x7d" := by
    intro f hf fuel
    unfold safeSubstitute
    cases fuel with
    | zero => rfl
    | succ n =>
      rw [hdata, safeSubF_braced_miss f name.data [] hname hf n, safeSubF_nil, ← hdata]
  refine ⟨?_, rfl, rfl, rfl⟩
  cases b with
  | false => simp [loadSecretsText, key env henv f1]
  | true => simp [loadSecretsText, key env henv f1, key secrets hsec f2]

theorem C7_unmatched_placeholder_left_verbatim_witness :
    loadSecretsText ("$\x7b" ++ "S" ++ "\x7d") (fun _ => none) (fun _ => none) true 3 3 =
      "$\x7b" ++ "S" ++ "\x7d" ∧
    loadSecretsText "xyz" (fun _ => none) (fun _ => none) false 3 3 =
      safeSubstitute (fun _ => none) 3 "xyz" ∧
    load_secrets_file [("k", "$\x7bS\x7d")] (fun _ => none) (fun _ => none) false 40 40 =
      some [("k", "$\x7bS\x7d")] ∧
    load_secrets_file [("k", "$\x7bS\x7d")] (fun _ => none) (fun _ => none) true 40 40 =
      some [("k", "$\x7bS\x7d")] :=
  C7_unmatched_placeholder_left_verbatim "S" "xyz"
    (fun _ => none) (fun _ => none) true 3 3 rfl rfl rfl

end Gnenv
